import Mathlib

/-!
Verification of the DESI tutorial notebooks (`redshift-database.ipynb` and
`Dec2020/galaxies/fitting_sps.ipynb`) against their natural-language
specification.  The notebooks are shallowly embedded below: numeric values
are rationals, table rows are structures, and the external library calls the
notebooks delegate to are abstracted as parameters of the embedding, so that
every theorem is about what the notebook cells themselves compute.
-/

namespace DesiTutorials

/-! ## Embedding of `fitting_sps.ipynb`: the log-posterior `lnPost` -/

/-- Environment captured by the closure `lnPost` in `fitting_sps.ipynb`:
the prior object `priors` (its `lnPrior`, which may be non-finite, modelled
as `Option ℚ` with `none` standing for a non-finite value, and its
`transform`), the emulator `fsps_emulator.sed` evaluated on a wavelength
grid, the observed spectra arrays for galaxy `igal`, and the redshift
`zred`. -/
structure PostEnv where
  lnPrior : List ℚ → Option ℚ
  transform : List ℚ → List ℚ
  sed : List ℚ → ℚ → List ℚ → List ℚ
  wave : List ℚ
  flux_obs : List ℚ
  ivar_obs : List ℚ
  zred : ℚ

/-- `lnPost(theta)` from `fitting_sps.ipynb`: return `-inf` (here `none`)
when the log prior is not finite; otherwise compute the emulated flux at
`priors.transform(theta)` and `zred` on the observed wavelength grid, form
`dflux = flux - flux_obs`, `chi2 = sum(dflux**2 * ivar_obs)`, and return
`lp + (-0.5 * chi2)`. -/
def lnPost (env : PostEnv) (theta : List ℚ) : Option ℚ :=
  match env.lnPrior theta with
  | none => none
  | some lp =>
    let ttheta := env.transform theta
    let flux := env.sed ttheta env.zred env.wave
    let dflux := List.zipWith (fun f o => f - o) flux env.flux_obs
    let chi2 := (List.zipWith (fun d iv => d ^ 2 * iv) dflux env.ivar_obs).sum
    let lnLike := -(1 / 2 : ℚ) * chi2
    some (lp + lnLike)

/-- The log-posterior exactly as the specification sentence words it:
negative infinity when `priors.lnPrior(theta)` is not finite, and otherwise
`lnPrior(theta)` plus the log-likelihood `-0.5` times the sum over
wavelengths of (emulated flux at `priors.transform(theta)` and redshift
`zred` minus the observed flux) squared times the observed inverse
variance. -/
def lnPostSpec (env : PostEnv) (theta : List ℚ) : Option ℚ :=
  match env.lnPrior theta with
  | none => none
  | some lp =>
    some (lp + -(1 / 2 : ℚ) *
      (List.zipWith (fun d iv => d ^ 2 * iv)
        (List.zipWith (fun f o => f - o)
          (env.sed (env.transform theta) env.zred env.wave) env.flux_obs)
        env.ivar_obs).sum)

/-! ## Embedding of `redshift-database.ipynb`: the velocity residual -/

/-- The speed of light in km/s, `astropy.constants.c.to('km / s')`. -/
def lightspeed_km_s : ℚ := 299792458 / 1000

/-- `dz` as computed in Python from the joined rows (cell "A Join"):
`(row.ZCat.z - row.Truth.truez) / (1.0 + row.Truth.truez)`. -/
def dzPython (truez z : ℚ) : ℚ := (z - truez) / (1 + truez)

/-- `dz` as the labelled expression inside the SQL query (cell "Efficiency
Studies"): `(db.ZCat.z - db.Truth.truez) / (1.0 + db.Truth.truez)`. -/
def dzSql (truez z : ℚ) : ℚ := (z - truez) / (1 + truez)

/-- The velocity residual `dv = lightspeed.to('km / s') * dz`. -/
def dv (truez z : ℚ) : ℚ := lightspeed_km_s * dzPython truez z

/-! ## Embedding of the initial setup cell (environment variables) -/

/-- `os.path.join` for the two-component joins used in the setup cell. -/
def pathJoin (a b : String) : String := a ++ "/" ++ b

/-- The reference run identifier used throughout the notebook. -/
def reference_run : String := "19.12"

/-- The program loaded by the truth/target cells. -/
def program : String := "dark"

/-- The environment variables set by the initial setup cell. -/
structure EnvironSetup where
  desisurvey_output : String
  desi_spectro_redux : String
  desi_spectro_sim : String
  pixprod : String
  specprod : String
  desi_spectro_data : String

/-- `basedir = os.path.join(os.environ['DESI_ROOT'], 'datachallenge',
'reference_runs', reference_run)`. -/
def basedir (desi_root : String) : String :=
  pathJoin (pathJoin (pathJoin desi_root "datachallenge") "reference_runs") reference_run

/-- The assignments to `os.environ` made by the initial setup cell of
`redshift-database.ipynb`, as a function of `$DESI_ROOT`. -/
def setupEnviron (desi_root : String) : EnvironSetup :=
  let b := basedir desi_root
  let sim := pathJoin (pathJoin b "spectro") "sim"
  { desisurvey_output := pathJoin b "survey"
    desi_spectro_redux := pathJoin (pathJoin b "spectro") "redux"
    desi_spectro_sim := sim
    pixprod := "mini"
    specprod := "mini"
    desi_spectro_data := pathJoin sim "mini" }

/-- The order of the notebook's cells relevant to setup and loading: the
initial setup cell precedes the database-creation cell and all five load
cells. -/
def notebookCellOrder : List String :=
  ["initial_setup", "setup_db", "load_obslist", "load_truth_target",
   "load_zcat", "load_fiberassign"]

/-! ## Embedding of the loading stage -/

/-- One `db.load_file` (or `db.load_fiberassign`) invocation: which file is
loaded, into which database table, through which ORM object or loader. -/
structure LoadOp where
  source : String
  table : String
  orm : String
deriving DecidableEq

/-- The five load operations issued by the loading cells, in notebook
order.  File names are built exactly as in the source
(`'truth-{0}.fits'.format(program)` with `program = 'dark'`, etc.). -/
def loadPlan : List LoadOp :=
  [ ⟨"exposures.fits", "obslist", "db.ObsList"⟩,
    ⟨"truth-" ++ program ++ ".fits", "truth", "db.Truth"⟩,
    ⟨"targets-" ++ program ++ ".fits", "target", "db.Target"⟩,
    ⟨"zcatalog-mini.fits", "zcat", "db.ZCat"⟩,
    ⟨"fiberassign", "fiberassign", "db.load_fiberassign"⟩ ]

/-- A row of `survey/exposures.fits`; only `PROGRAM` matters to the
rowfilter, the remaining columns are an opaque payload. -/
structure ObsRow where
  prog : String
  payload : ℤ
deriving DecidableEq

/-- A row of `zcatalog-mini.fits`; only `TARGETID` matters to the
rowfilter. -/
structure ZRow where
  targetid : ℤ
  payload : ℤ
deriving DecidableEq

/-- Modelled from the spec: `db.load_file` itself lives in the external
`desispec.database.redshift` module, not in this repository; the notebook's
own markdown documents that the `rowfilter` option eliminates the rows on
which the predicate is false, so loading is embedded as filtering the file's
rows by the predicate. -/
def load_file_rows {α : Type} (rows : List α) (rowfilter : α → Bool) : List α :=
  rows.filter rowfilter

/-- The rowfilter passed when loading `exposures.fits` into `obslist`:
`lambda x: (x['PROGRAM'] != 'CALIB')`. -/
def obslistRowfilter (r : ObsRow) : Bool := r.prog != "CALIB"

/-- The rowfilter passed when loading `zcatalog-mini.fits` into `zcat`:
`lambda x: ((x['TARGETID'] != 0) & (x['TARGETID'] != -1))`. -/
def zcatRowfilter (r : ZRow) : Bool := (r.targetid != 0) && (r.targetid != -1)

/-- The `obslist` table contents after loading. -/
def loadObslist (rows : List ObsRow) : List ObsRow :=
  load_file_rows rows obslistRowfilter

/-- The `zcat` table contents after loading. -/
def loadZcat (rows : List ZRow) : List ZRow :=
  load_file_rows rows zcatRowfilter

/-! ## Embedding of the update cells (`Truth.templatetype`) -/

/-- A row of the `truth` table; `targetid`, `truez` and `templatetype` are
the columns the update cells touch or filter on, the remaining columns are
an opaque payload. -/
structure TruthRow where
  targetid : ℤ
  truez : ℚ
  templatetype : String
  payload : ℤ
deriving DecidableEq

/-- SQL `LIKE 'QSO%'`: the string starts with `QSO`.  Stated on the
character lists underlying the strings. -/
def likeQSO (s : String) : Bool := "QSO".data.isPrefixOf s.data

/-- The query used both before and after the update:
`query(db.Truth).filter(db.Truth.truez >= 2.1).filter(db.Truth.templatetype.like('QSO%'))`.
The literal `2.1` is the rational `21/10`. -/
def qsoLyaFilter (r : TruthRow) : Bool :=
  decide (mkRat 21 10 ≤ r.truez) && likeQSO r.templatetype

/-- The rows returned by the QSO query on a given table state. -/
def truthQsoQuery (rows : List TruthRow) : List TruthRow :=
  rows.filter qsoLyaFilter

/-- The committed effect of the update loop: every row returned by the
query gets `templatetype = 'QSO_L'`; every other row is untouched. -/
def updateTruthRows (rows : List TruthRow) : List TruthRow :=
  rows.map (fun r =>
    if qsoLyaFilter r then { r with templatetype := "QSO_L" } else r)

/-! ## Embedding of `truth_query_to_table` -/

/-- A value stored in a table cell: a (possibly padded) string or a
number. -/
inductive ColValue where
  | str : String → ColValue
  | num : ℚ → ColValue
deriving DecidableEq

/-- `str.upper()` on column names. -/
def upperStr (s : String) : String := String.mk (s.data.map Char.toUpper)

/-- `np.char.rstrip`: strip trailing whitespace from a string. -/
def rstripStr (s : String) : String :=
  String.mk ((s.data.reverse.dropWhile Char.isWhitespace).reverse)

/-- `np.char.rstrip` applied to a cell value (only string values carry
trailing whitespace). -/
def rstripValue : ColValue → ColValue
  | .str s => .str (rstripStr s)
  | .num x => .num x

/-- A joined query-result row as `truth_query_to_table` consumes it:
`row.Truth.<col>`, `row.Target.<col>`, `row.ZCat.<col>`, and the labelled
`row.dz`. -/
structure QRow where
  truthVal : String → ColValue
  targetVal : String → ColValue
  zcatVal : String → ColValue
  dz : ℚ

/-- One column of the resulting astropy `Table`: its name, its values, and
its `MaskedColumn` mask. -/
structure TableColumn where
  name : String
  values : List ColValue
  mask : List Bool
deriving DecidableEq

/-- `truth_query_to_table(q)` from `redshift-database.ipynb`, parameterised
by the schema `truthCols` of `db.Truth.__table__.columns`: every Truth
column (rstripped when it is `truespectype` or `templatetype`), then
`desi_target`, `bgs_target`, `mws_target` from `row.Target`, then `z`,
`zerr`, `zwarn`, `spectype` (rstripped) from `row.ZCat`, then `DZ`; every
column is a `MaskedColumn` with name uppercased and mask
`[False]*len(q)`. -/
def truth_query_to_table (truthCols : List String) (q : List QRow) :
    List TableColumn :=
  let mask := List.replicate q.length false
  (truthCols.map (fun c =>
    if c = "truespectype" ∨ c = "templatetype" then
      ⟨upperStr c, q.map (fun row => rstripValue (row.truthVal c)), mask⟩
    else
      ⟨upperStr c, q.map (fun row => row.truthVal c), mask⟩))
  ++ (["desi_target", "bgs_target", "mws_target"].map (fun c =>
      ⟨upperStr c, q.map (fun row => row.targetVal c), mask⟩))
  ++ (["z", "zerr", "zwarn", "spectype"].map (fun c =>
      if c = "spectype" then
        ⟨upperStr c, q.map (fun row => rstripValue (row.zcatVal c)), mask⟩
      else
        ⟨upperStr c, q.map (fun row => row.zcatVal c), mask⟩))
  ++ [⟨"DZ", q.map (fun row => ColValue.num row.dz), mask⟩]

/-! ## Embedding of the optimization cell of `fitting_sps.ipynb` -/

/-- `np.mean(samples, axis=0)`: the componentwise mean of a list of
parameter vectors. -/
def vecMean (samples : List (List ℚ)) : List ℚ :=
  match samples with
  | [] => []
  | s :: _ =>
    (List.range s.length).map
      (fun j => (samples.map (fun v => v.getD j 0)).sum / samples.length)

/-- The state of the notebook when the optimization cell runs:
`random_thetas`, the five prior samples drawn for the earlier plotting
cell, and the ten fresh prior samples drawn on the `x0` line of the
optimization cell itself. -/
structure OptCellEnv where
  random_thetas : List (List ℚ)
  samples10 : List (List ℚ)

/-- `x0 = np.mean([priors.sample() for i in range(10)], axis=0)`, the
initial point the optimization cell defines. -/
def x0 (env : OptCellEnv) : List ℚ := vecMean env.samples10

/-- The value bound to the name `tt` when the optimization cell runs: the
Python loop `for tt in random_thetas:` in the earlier plotting cell leaks
its loop variable, leaving `tt` bound to the last element; `none` models
the `NameError` raised if `tt` were unbound. -/
def tt_after_plot_loop (env : OptCellEnv) : Option (List ℚ) :=
  env.random_thetas.getLast?

/-- The initial point actually passed to `op.minimize` by
`min_result = op.minimize(_lnpost, tt, method='Nelder-Mead', ...)`:
the argument in the source is `tt`, not `x0`. -/
def minimize_initial_point (env : OptCellEnv) : Option (List ℚ) :=
  tt_after_plot_loop env

/-- The objective handed to `op.minimize`:
`_lnpost = lambda *args: -2. * lnPost(*args)`. -/
def minimizeObjective (post : List ℚ → Option ℚ) (theta : List ℚ) : Option ℚ :=
  (post theta).map (fun v => -2 * v)

/-- A concrete notebook state: five one-dimensional prior samples
`[[0],[1],[2],[3],[4]]` for the plotting cell and ten samples all equal to
`[0]` for the `x0` line. -/
def optEnv0 : OptCellEnv :=
  ⟨[[0], [1], [2], [3], [4]], List.replicate 10 [0]⟩

/-! ## Embedding of the `desi_mcmc.run` call of `fitting_sps.ipynb` -/

/-- The keyword arguments of the single `desi_mcmc.run(...)` call, in
source order. -/
def runKwargNames : List String :=
  ["wave_obs", "flux_obs", "flux_ivar_obs", "zred", "sampler", "nwalkers",
   "burnin", "opt_maxiter", "niter", "debug"]

/-- The keyword arguments the claim enumerates: the four data arguments
and the five fixed sampler choices, and nothing else. -/
def claimedKwargNames : List String :=
  ["wave_obs", "flux_obs", "flux_ivar_obs", "zred", "sampler", "nwalkers",
   "burnin", "opt_maxiter", "niter"]

/-- The argument record received by `desi_mcmc.run`. -/
structure RunArgs where
  wave_obs : List ℚ
  flux_obs : List ℚ
  flux_ivar_obs : List ℚ
  zred : ℚ
  sampler : String
  nwalkers : ℕ
  burnin : ℕ
  opt_maxiter : ℕ
  niter : ℕ
  debug : Bool
deriving DecidableEq

/-- The spectra object read by `read_spectra`, restricted to the `brz`
camera arrays the notebook uses. -/
structure SpectraData where
  wave_brz : List ℚ
  flux_brz : List (List ℚ)
  ivar_brz : List (List ℚ)

/-- `igal = 2`, the galaxy index the notebook fits. -/
def igal : ℕ := 2

/-- The `desi_mcmc.run` invocation from the source: observed wavelength
grid, flux and inverse variance of galaxy `igal`, redshift
`zred = zbest['Z'][igal]`, and the fixed choices, including
`debug=True`. -/
def desiMcmcRunCall (spectra : SpectraData) (zbestZ : List ℚ) : RunArgs :=
  { wave_obs := spectra.wave_brz
    flux_obs := spectra.flux_brz.getD igal []
    flux_ivar_obs := spectra.ivar_brz.getD igal []
    zred := zbestZ.getD igal 0
    sampler := "zeus"
    nwalkers := 100
    burnin := 100
    opt_maxiter := 10000
    niter := 1000
    debug := true }

/-! ## Embedding of the survey-progress computation -/

/-- One row of the survey-progress query result: `FiberAssign.targetid`,
`ObsList.expid`, `ObsList.mjd`. -/
structure ObsRec where
  targetid : ℤ
  expid : ℤ
  mjd : ℚ
deriving DecidableEq

/-- The `ORDER BY q1.c.targetid, db.ObsList.expid` ordering on rows. -/
def rowLe (a b : ObsRec) : Prop :=
  a.targetid < b.targetid ∨ (a.targetid = b.targetid ∧ a.expid ≤ b.expid)

/-- The `targetid` array extracted by `zip(*q2)`. -/
def tids (rows : List ObsRec) : List ℤ := rows.map ObsRec.targetid

/-- `np.unique(targetid)` on the sorted `targetid` array: the distinct
values in order. -/
def unique_targetid (rows : List ObsRec) : List ℤ := (tids rows).dedup

/-- The first-occurrence index `i` returned by
`np.unique(..., return_index=True)` for a given unique value. -/
def firstOccur (rows : List ObsRec) (u : ℤ) : ℕ := (tids rows).indexOf u

/-- The count `c` returned by `np.unique(..., return_counts=True)` for a
given unique value. -/
def occurCount (rows : List ObsRec) (u : ℤ) : ℕ := (tids rows).count u

/-- The index `i + (c - 1)` used by `expid[i + (c-1)]` and
`mjd[i + (c-1)]`. -/
def lastOccurIdx (rows : List ObsRec) (u : ℤ) : ℕ :=
  firstOccur rows u + (occurCount rows u - 1)

/-- `unique_expid = expid[i + (c-1)]`. -/
def unique_expid (rows : List ObsRec) : List ℤ :=
  (unique_targetid rows).map
    (fun u => (rows.map ObsRec.expid).getD (lastOccurIdx rows u) 0)

/-- `unique_mjd = mjd[i + (c-1)]`. -/
def unique_mjd (rows : List ObsRec) : List ℚ :=
  (unique_targetid rows).map
    (fun u => (rows.map ObsRec.mjd).getD (lastOccurIdx rows u) 0)

/-- Default row used with `List.getD` in the survey-progress proofs. -/
def defaultObsRec : ObsRec := ⟨0, 0, 0⟩

instance decRowLe (a b : ObsRec) : Decidable (rowLe a b) :=
  inferInstanceAs
    (Decidable (a.targetid < b.targetid ∨ (a.targetid = b.targetid ∧ a.expid ≤ b.expid)))

/-! ## Theorems for claims C1 and C2 -/

/-- Claim C1: for every parameter vector `theta`, the log-posterior `lnPost`
used for the spectral fit returns negative infinity when
`priors.lnPrior(theta)` is not finite, and otherwise returns
`lnPrior(theta)` plus the log-likelihood `-0.5 * sum` over wavelengths of
(emulated flux at `priors.transform(theta)` and redshift `zred` minus the
observed flux of galaxy `igal`) squared times the observed inverse
variance: the notebook's `lnPost` coincides with the spec's formula. -/
theorem lnPost_matches_spec (env : PostEnv) (theta : List ℚ) :
    lnPost env theta = lnPostSpec env theta := by
  unfold lnPost lnPostSpec
  cases env.lnPrior theta <;> rfl

/-- Claim C2: for every pair of `Truth` and `ZCat` rows joined on equal
`targetid`, the redshift-quality residual is
`dz = (ZCat.z - Truth.truez) / (1.0 + Truth.truez)` and the velocity
residual is `dv = c * dz` with `c` the speed of light in km/s; the same
formula is used in Python and as the labelled SQL expression. -/
theorem dv_formula (truez z : ℚ) :
    dzPython truez z = (z - truez) / (1 + truez) ∧
    dzSql truez z = dzPython truez z ∧
    dv truez z = lightspeed_km_s * dzPython truez z := by
  exact ⟨rfl, rfl, rfl⟩

/-- Claim C10: before any database load is performed, the initial setup
sets `DESISURVEY_OUTPUT` to `<basedir>/survey`, `DESI_SPECTRO_REDUX` to
`<basedir>/spectro/redux`, `DESI_SPECTRO_SIM` to `<basedir>/spectro/sim`,
`PIXPROD` and `SPECPROD` both to `'mini'`, and `DESI_SPECTRO_DATA` to
`<basedir>/spectro/sim/mini`, where
`basedir = $DESI_ROOT/datachallenge/reference_runs/19.12`. -/
theorem environ_setup_spec (desi_root : String) :
    basedir desi_root = desi_root ++ "/datachallenge/reference_runs/19.12" ∧
    (setupEnviron desi_root).desisurvey_output = basedir desi_root ++ "/survey" ∧
    (setupEnviron desi_root).desi_spectro_redux = basedir desi_root ++ "/spectro/redux" ∧
    (setupEnviron desi_root).desi_spectro_sim = basedir desi_root ++ "/spectro/sim" ∧
    (setupEnviron desi_root).pixprod = "mini" ∧
    (setupEnviron desi_root).specprod = "mini" ∧
    (setupEnviron desi_root).desi_spectro_data = basedir desi_root ++ "/spectro/sim/mini" ∧
    notebookCellOrder.indexOf "initial_setup" < notebookCellOrder.indexOf "load_obslist" ∧
    notebookCellOrder.indexOf "initial_setup" < notebookCellOrder.indexOf "load_truth_target" ∧
    notebookCellOrder.indexOf "initial_setup" < notebookCellOrder.indexOf "load_zcat" ∧
    notebookCellOrder.indexOf "initial_setup" < notebookCellOrder.indexOf "load_fiberassign" := by
  refine ⟨?_, ?_, ?_, ?_, rfl, rfl, ?_, by decide, by decide, by decide, by decide⟩ <;>
    simp [basedir, setupEnviron, pathJoin, reference_run, String.append_assoc]

/-- Claim C6: the loading stage populates exactly five tables —
`exposures.fits` into `obslist` (`db.ObsList`), `truth-dark.fits` into
`truth` (`db.Truth`), `targets-dark.fits` into `target` (`db.Target`),
`zcatalog-mini.fits` into `zcat` (`db.ZCat`), and the fiberassign directory
into `fiberassign` (`db.load_fiberassign`) — and, because the rowfilter
predicates exclude all other rows, after loading every `obslist` row has
`PROGRAM != 'CALIB'` and every `zcat` row has `TARGETID != 0` and
`TARGETID != -1`. -/
theorem load_stage_spec (obsRows : List ObsRow) (zRows : List ZRow) :
    loadPlan =
      [ ⟨"exposures.fits", "obslist", "db.ObsList"⟩,
        ⟨"truth-dark.fits", "truth", "db.Truth"⟩,
        ⟨"targets-dark.fits", "target", "db.Target"⟩,
        ⟨"zcatalog-mini.fits", "zcat", "db.ZCat"⟩,
        ⟨"fiberassign", "fiberassign", "db.load_fiberassign"⟩ ] ∧
    loadPlan.length = 5 ∧
    (loadObslist obsRows).all (fun r => r.prog != "CALIB") = true ∧
    (loadZcat zRows).all (fun r => (r.targetid != 0) && (r.targetid != -1)) = true := by
  refine ⟨by decide, rfl, ?_, ?_⟩
  · simp only [loadObslist, load_file_rows, List.all_eq_true]
    intro r hr
    exact (List.mem_filter.mp hr).2
  · simp only [loadZcat, load_file_rows, List.all_eq_true]
    intro r hr
    exact (List.mem_filter.mp hr).2

/-- Claim C9: for every query result `q`, `truth_query_to_table` returns a
table whose columns are every `Truth` column uppercased followed by
`DESI_TARGET`, `BGS_TARGET`, `MWS_TARGET`, `Z`, `ZERR`, `ZWARN`,
`SPECTYPE`, `DZ`; every column has length `len(q)` with no entry masked,
and exactly the three string columns `TRUESPECTYPE`, `TEMPLATETYPE`,
`SPECTYPE` have trailing whitespace stripped from every value while all
other columns carry the row values unchanged. -/
theorem truth_query_to_table_spec (truthCols : List String) (q : List QRow) :
    (truth_query_to_table truthCols q).map TableColumn.name
      = truthCols.map upperStr
        ++ ["DESI_TARGET", "BGS_TARGET", "MWS_TARGET", "Z", "ZERR", "ZWARN",
            "SPECTYPE", "DZ"] ∧
    ((truth_query_to_table truthCols q).all
      (fun col => (col.values.length == q.length)
        && (col.mask == List.replicate q.length false))) = true ∧
    truth_query_to_table truthCols q
      = (truthCols.map (fun c =>
          ⟨upperStr c,
            q.map (fun row =>
              if c = "truespectype" ∨ c = "templatetype" then
                rstripValue (row.truthVal c)
              else row.truthVal c),
            List.replicate q.length false⟩))
        ++ [⟨"DESI_TARGET", q.map (fun row => row.targetVal "desi_target"),
              List.replicate q.length false⟩,
            ⟨"BGS_TARGET", q.map (fun row => row.targetVal "bgs_target"),
              List.replicate q.length false⟩,
            ⟨"MWS_TARGET", q.map (fun row => row.targetVal "mws_target"),
              List.replicate q.length false⟩,
            ⟨"Z", q.map (fun row => row.zcatVal "z"),
              List.replicate q.length false⟩,
            ⟨"ZERR", q.map (fun row => row.zcatVal "zerr"),
              List.replicate q.length false⟩,
            ⟨"ZWARN", q.map (fun row => row.zcatVal "zwarn"),
              List.replicate q.length false⟩,
            ⟨"SPECTYPE", q.map (fun row => rstripValue (row.zcatVal "spectype")),
              List.replicate q.length false⟩,
            ⟨"DZ", q.map (fun row => ColValue.num row.dz),
              List.replicate q.length false⟩] := by
  have hseg : ∀ c ∈ truthCols,
      (if c = "truespectype" ∨ c = "templatetype" then
        (⟨upperStr c, q.map (fun row => rstripValue (row.truthVal c)),
          List.replicate q.length false⟩ : TableColumn)
      else
        ⟨upperStr c, q.map (fun row => row.truthVal c),
          List.replicate q.length false⟩)
      = ⟨upperStr c,
          q.map (fun row =>
            if c = "truespectype" ∨ c = "templatetype" then
              rstripValue (row.truthVal c)
            else row.truthVal c),
          List.replicate q.length false⟩ := by
    intro c _
    by_cases h : c = "truespectype" ∨ c = "templatetype" <;> simp [h]
  have hmain : truth_query_to_table truthCols q
      = (truthCols.map (fun c =>
          (⟨upperStr c,
            q.map (fun row =>
              if c = "truespectype" ∨ c = "templatetype" then
                rstripValue (row.truthVal c)
              else row.truthVal c),
            List.replicate q.length false⟩ : TableColumn)))
        ++ [⟨"DESI_TARGET", q.map (fun row => row.targetVal "desi_target"),
              List.replicate q.length false⟩,
            ⟨"BGS_TARGET", q.map (fun row => row.targetVal "bgs_target"),
              List.replicate q.length false⟩,
            ⟨"MWS_TARGET", q.map (fun row => row.targetVal "mws_target"),
              List.replicate q.length false⟩,
            ⟨"Z", q.map (fun row => row.zcatVal "z"),
              List.replicate q.length false⟩,
            ⟨"ZERR", q.map (fun row => row.zcatVal "zerr"),
              List.replicate q.length false⟩,
            ⟨"ZWARN", q.map (fun row => row.zcatVal "zwarn"),
              List.replicate q.length false⟩,
            ⟨"SPECTYPE", q.map (fun row => rstripValue (row.zcatVal "spectype")),
              List.replicate q.length false⟩,
            ⟨"DZ", q.map (fun row => ColValue.num row.dz),
              List.replicate q.length false⟩] := by
    simp only [truth_query_to_table]
    rw [List.map_congr_left hseg]
    simp only [List.append_assoc]
    rfl
  refine ⟨?_, ?_, hmain⟩
  · rw [hmain]
    simp only [List.map_append, List.map_map]
    rfl
  · rw [hmain]
    simp [List.all_append, List.all_map, Function.comp]

/-- Claim C3, evaluated at the concrete notebook state `optEnv0`: the
optimization cell defines `x0` as the mean of 10 prior samples, but the
`op.minimize` call passes the leaked loop variable `tt` (the last of the
five plotting-cell samples) as the starting point, so the starting point
differs from `x0`; no name error is raised only because the earlier
plotting loop left `tt` bound. -/
theorem minimize_starts_from_tt_not_x0 :
    minimize_initial_point optEnv0 = some [(4 : ℚ)] ∧
    x0 optEnv0 = [(0 : ℚ)] ∧
    minimize_initial_point optEnv0 ≠ some (x0 optEnv0) ∧
    tt_after_plot_loop optEnv0 ≠ none := by
  have h2 : x0 optEnv0 = [(0 : ℚ)] := by
    simp [x0, optEnv0, vecMean]
  refine ⟨rfl, h2, ?_, by decide⟩
  rw [h2]
  decide

/-- Claim C7 as stated is false on the code: the `desi_mcmc.run` call does
not receive exactly the nine enumerated arguments, because it also passes
`debug=True`. -/
theorem run_call_extra_debug_kwarg :
    runKwargNames ≠ claimedKwargNames ∧
    "debug" ∈ runKwargNames ∧
    "debug" ∉ claimedKwargNames ∧
    (desiMcmcRunCall ⟨[], [], []⟩ []).debug = true := by
  exact ⟨by decide, by decide, by decide, rfl⟩

/-- Claim C7 (amended): the single `desi_mcmc.run` call receives the
observed wavelength grid, the observed flux and inverse variance of galaxy
`igal = 2`, and the redshift `zred`, all unmodified, together with
`sampler='zeus'`, `nwalkers=100`, `burnin=100`, `opt_maxiter=10000`,
`niter=1000`, and additionally `debug=True`. -/
theorem run_call_args_passed_through (spectra : SpectraData) (zbestZ : List ℚ) :
    desiMcmcRunCall spectra zbestZ =
      { wave_obs := spectra.wave_brz
        flux_obs := spectra.flux_brz.getD 2 []
        flux_ivar_obs := spectra.ivar_brz.getD 2 []
        zred := zbestZ.getD 2 0
        sampler := "zeus"
        nwalkers := 100
        burnin := 100
        opt_maxiter := 10000
        niter := 1000
        debug := true } ∧
    runKwargNames = claimedKwargNames ++ ["debug"] :=
  ⟨rfl, rfl⟩

/-- Default row used with `List.getD` in the update theorem. -/
def defaultTruthRow : TruthRow := ⟨0, 0, "", 0⟩

/-- Claim C5: the update sets `templatetype = 'QSO_L'` on every `Truth` row
with `truez >= 2.1` and `templatetype LIKE 'QSO%'` and commits; re-running
the same query afterwards returns only rows whose `templatetype` equals
`'QSO_L'`; rows not matching the filter, and all other columns of updated
rows, are unchanged. -/
theorem truth_update_spec (rows : List TruthRow) :
    (truthQsoQuery (updateTruthRows rows)).all
      (fun r => r.templatetype == "QSO_L") = true ∧
    (updateTruthRows rows).length = rows.length ∧
    ∀ i : ℕ,
      ((updateTruthRows rows).getD i defaultTruthRow).targetid
          = (rows.getD i defaultTruthRow).targetid ∧
      ((updateTruthRows rows).getD i defaultTruthRow).truez
          = (rows.getD i defaultTruthRow).truez ∧
      ((updateTruthRows rows).getD i defaultTruthRow).payload
          = (rows.getD i defaultTruthRow).payload ∧
      (qsoLyaFilter (rows.getD i defaultTruthRow) = true →
        ((updateTruthRows rows).getD i defaultTruthRow).templatetype = "QSO_L") ∧
      (qsoLyaFilter (rows.getD i defaultTruthRow) = false →
        (updateTruthRows rows).getD i defaultTruthRow = rows.getD i defaultTruthRow) := by
  refine ⟨?_, by simp [updateTruthRows], ?_⟩
  · simp only [truthQsoQuery, updateTruthRows, List.all_eq_true, List.mem_filter,
      List.mem_map]
    rintro r ⟨⟨r0, _hr0, rfl⟩, hq⟩
    by_cases h : qsoLyaFilter r0
    · simp [h]
    · simp only [h, if_false] at hq
      exact absurd hq h
  · intro i
    by_cases hi : i < rows.length
    · have hlen : i < (updateTruthRows rows).length := by
        simpa [updateTruthRows] using hi
      rw [List.getD_eq_getElem _ _ hlen, List.getD_eq_getElem _ _ hi]
      simp only [updateTruthRows, List.getElem_map]
      by_cases h : qsoLyaFilter rows[i]
      · simp [h]
      · simp [h]
    · have h1 : (updateTruthRows rows).getD i defaultTruthRow = defaultTruthRow := by
        apply List.getD_eq_default
        simpa [updateTruthRows] using Nat.le_of_not_lt hi
      have h2 : rows.getD i defaultTruthRow = defaultTruthRow :=
        List.getD_eq_default _ _ (Nat.le_of_not_lt hi)
      rw [h1, h2]
      refine ⟨rfl, rfl, rfl, ?_, fun _ => rfl⟩
      intro hq
      exact absurd hq (by decide)

/-- Witness for `truth_update_spec`: a concrete three-row table, checking
both the requery result and the frame condition on a non-matching row. -/
theorem truth_update_spec_witness :
    (truthQsoQuery (updateTruthRows
        [⟨1, 3, "QSO   ", 7⟩, ⟨2, 1, "QSO", 8⟩, ⟨3, 5, "ELG", 9⟩])).all
      (fun r => r.templatetype == "QSO_L") = true ∧
    ((updateTruthRows
        [⟨1, 3, "QSO   ", 7⟩, ⟨2, 1, "QSO", 8⟩, ⟨3, 5, "ELG", 9⟩]).getD 0
        defaultTruthRow).templatetype = "QSO_L" ∧
    (updateTruthRows
        [⟨1, 3, "QSO   ", 7⟩, ⟨2, 1, "QSO", 8⟩, ⟨3, 5, "ELG", 9⟩]).getD 2 defaultTruthRow
      = ([⟨1, 3, "QSO   ", 7⟩, ⟨2, 1, "QSO", 8⟩,
          (⟨3, 5, "ELG", 9⟩ : TruthRow)]).getD 2 defaultTruthRow :=
  ⟨(truth_update_spec [⟨1, 3, "QSO   ", 7⟩, ⟨2, 1, "QSO", 8⟩, ⟨3, 5, "ELG", 9⟩]).1,
   (((truth_update_spec
      [⟨1, 3, "QSO   ", 7⟩, ⟨2, 1, "QSO", 8⟩, ⟨3, 5, "ELG", 9⟩]).2.2 0).2.2.2.1 (by decide)),
   (((truth_update_spec
      [⟨1, 3, "QSO   ", 7⟩, ⟨2, 1, "QSO", 8⟩, ⟨3, 5, "ELG", 9⟩]).2.2 2).2.2.2.2 (by decide))⟩

theorem rowLe_targetid_le {a b : ObsRec} (h : rowLe a b) :
    a.targetid ≤ b.targetid := by
  rcases h with h | ⟨h, _⟩
  · exact le_of_lt h
  · exact le_of_eq h

/-- In a query result sorted by `(targetid, expid)`, the position
`i + (c - 1)` computed from `np.unique`'s first-occurrence index and count
is in range, lands on a row of the given `targetid`, and that row's
`expid` dominates every row of the same `targetid`. -/
theorem lastOccurIdx_spec :
    ∀ rows : List ObsRec, List.Pairwise rowLe rows →
      ∀ u : ℤ, u ∈ tids rows →
        lastOccurIdx rows u < rows.length ∧
        (rows.getD (lastOccurIdx rows u) defaultObsRec).targetid = u ∧
        ∀ r2 ∈ rows, r2.targetid = u →
          r2.expid ≤ (rows.getD (lastOccurIdx rows u) defaultObsRec).expid := by
  intro rows
  induction rows with
  | nil => intro _ u hu; simp [tids] at hu
  | cons r t ih =>
    intro hp u hu
    rw [List.pairwise_cons] at hp
    obtain ⟨hp1, hp2⟩ := hp
    have htids : tids (r :: t) = r.targetid :: tids t := rfl
    by_cases h : r.targetid = u
    · have hfi : firstOccur (r :: t) u = 0 := by
        simp [firstOccur, htids, List.indexOf_cons_eq (tids t) h]
      have hcnt : occurCount (r :: t) u = occurCount t u + 1 := by
        simp only [occurCount, htids]
        rw [h]
        exact List.count_cons_self u (tids t)
      by_cases hc : occurCount t u = 0
      · have hnot : u ∉ tids t := List.count_eq_zero.mp hc
        have hidx : lastOccurIdx (r :: t) u = 0 := by
          simp [lastOccurIdx, hfi, hcnt, hc]
        refine ⟨?_, ?_, ?_⟩
        · rw [hidx]; exact Nat.succ_pos _
        · rw [hidx]; simpa [List.getD_cons_zero] using h
        · intro r2 hr2 hr2u
          rw [hidx]
          rcases List.mem_cons.mp hr2 with rfl | hr2t
          · simp [List.getD_cons_zero]
          · have : u ∈ tids t := by
              have hmm := List.mem_map_of_mem ObsRec.targetid hr2t
              rwa [hr2u] at hmm
            exact absurd this hnot
      · have hcpos : 0 < occurCount t u := Nat.pos_of_ne_zero hc
        have hmem : u ∈ tids t := List.count_pos_iff.mp hcpos
        cases t with
        | nil => simp [tids] at hmem
        | cons b t2 =>
          have hbu : b.targetid = u := by
            rcases List.mem_cons.mp hmem with hub | hut2
            · exact hub.symm
            · obtain ⟨x, hx, hxu⟩ := List.mem_map.mp hut2
              have h1 : rowLe b x := (List.pairwise_cons.mp hp2).1 x hx
              have h2 : rowLe r b := hp1 b (List.mem_cons_self b t2)
              have hle1 : b.targetid ≤ x.targetid := rowLe_targetid_le h1
              have hle2 : r.targetid ≤ b.targetid := rowLe_targetid_le h2
              rw [hxu] at hle1
              rw [h] at hle2
              exact le_antisymm hle1 hle2
          have hfit : firstOccur (b :: t2) u = 0 := by
            show List.indexOf u (tids (b :: t2)) = 0
            have hbt : tids (b :: t2) = b.targetid :: tids t2 := rfl
            rw [hbt]
            exact List.indexOf_cons_eq (tids t2) hbu
          obtain ⟨ihlen, ihtid, ihmax⟩ := ih hp2 u hmem
          have hlt : lastOccurIdx (b :: t2) u = occurCount (b :: t2) u - 1 := by
            simp [lastOccurIdx, hfit]
          have hidx : lastOccurIdx (r :: b :: t2) u = occurCount (b :: t2) u := by
            simp [lastOccurIdx, hfi, hcnt]
          obtain ⟨n, hn⟩ : ∃ n, occurCount (b :: t2) u = n + 1 :=
            ⟨occurCount (b :: t2) u - 1, (Nat.succ_pred_eq_of_pos hcpos).symm⟩
          have hstep :
              (r :: b :: t2).getD (lastOccurIdx (r :: b :: t2) u) defaultObsRec
                = (b :: t2).getD (lastOccurIdx (b :: t2) u) defaultObsRec := by
            rw [hidx, hlt, hn]
            simp [List.getD_cons_succ]
          refine ⟨?_, ?_, ?_⟩
          · have h1 := ihlen
            rw [hlt] at h1
            rw [hidx]
            simp only [List.length_cons] at h1 ⊢
            omega
          · rw [hstep]; exact ihtid
          · intro r2 hr2 hr2u
            rw [hstep]
            rcases List.mem_cons.mp hr2 with rfl | hr2t
            · have hmem2 :
                  (b :: t2).getD (lastOccurIdx (b :: t2) u) defaultObsRec ∈ b :: t2 := by
                rw [List.getD_eq_getElem _ _ ihlen]
                exact List.getElem_mem ihlen
              have hrle := hp1 _ hmem2
              rcases hrle with hlt2 | ⟨_, hle2⟩
              · rw [ihtid, ← hr2u] at hlt2
                exact absurd hlt2 (lt_irrefl _)
              · exact hle2
            · exact ihmax r2 hr2t hr2u
    · have hu' : u ∈ tids t := by
        rcases List.mem_cons.mp (htids ▸ hu) with hur | hut
        · exact absurd hur.symm h
        · exact hut
      have hfi : firstOccur (r :: t) u = firstOccur t u + 1 := by
        simp [firstOccur, htids, List.indexOf_cons_ne (tids t) h]
      have hcnt : occurCount (r :: t) u = occurCount t u := by
        simp only [occurCount, htids]
        exact List.count_cons_of_ne (Ne.symm h) (tids t)
      obtain ⟨ihlen, ihtid, ihmax⟩ := ih hp2 u hu'
      have hcpos : 0 < occurCount t u := List.count_pos_iff.mpr hu'
      have hidx : lastOccurIdx (r :: t) u = lastOccurIdx t u + 1 := by
        simp only [lastOccurIdx, hfi, hcnt]
        omega
      refine ⟨?_, ?_, ?_⟩
      · rw [hidx]
        simpa using Nat.succ_lt_succ ihlen
      · rw [hidx, List.getD_cons_succ]; exact ihtid
      · intro r2 hr2 hr2u
        rw [hidx, List.getD_cons_succ]
        rcases List.mem_cons.mp hr2 with rfl | hr2t
        · exact absurd hr2u h
        · exact ihmax r2 hr2t hr2u

/-- Claim C8: given the query result sorted by `(targetid, expid)`, the
survey-progress computation selects for every distinct `targetid` the row
holding its largest `expid`: for every `k`, `unique_expid[k]` and
`unique_mjd[k]` are the `expid` and `mjd` of the last observation of
`unique_targetid[k]`. -/
theorem survey_progress_last_observation (rows : List ObsRec)
    (hsorted : List.Pairwise rowLe rows) (k : ℕ)
    (hk : k < (unique_targetid rows).length) :
    ∃ r ∈ rows,
      r.targetid = (unique_targetid rows).getD k 0 ∧
      (unique_expid rows).getD k 0 = r.expid ∧
      (unique_mjd rows).getD k 0 = r.mjd ∧
      ∀ r2 ∈ rows, r2.targetid = r.targetid → r2.expid ≤ r.expid := by
  have huget : (unique_targetid rows).getD k 0 = (unique_targetid rows)[k] :=
    List.getD_eq_getElem _ _ hk
  have humem : (unique_targetid rows).getD k 0 ∈ unique_targetid rows := by
    rw [huget]; exact List.getElem_mem hk
  have hmem : (unique_targetid rows).getD k 0 ∈ tids rows :=
    List.dedup_subset _ humem
  obtain ⟨hlen, htid, hmax⟩ := lastOccurIdx_spec rows hsorted _ hmem
  refine ⟨rows.getD (lastOccurIdx rows ((unique_targetid rows).getD k 0))
      defaultObsRec, ?_, htid, ?_, ?_, ?_⟩
  · rw [List.getD_eq_getElem _ _ hlen]
    exact List.getElem_mem hlen
  · have hk2 : k < (unique_expid rows).length := by
      simpa [unique_expid] using hk
    rw [List.getD_eq_getElem _ _ hk2]
    simp only [unique_expid, List.getElem_map]
    rw [← huget]
    have hlen2 :
        lastOccurIdx rows ((unique_targetid rows).getD k 0)
          < (rows.map ObsRec.expid).length := by
      simpa using hlen
    rw [List.getD_eq_getElem _ _ hlen2]
    simp only [List.getElem_map]
    rw [List.getD_eq_getElem _ _ hlen]
  · have hk2 : k < (unique_mjd rows).length := by
      simpa [unique_mjd] using hk
    rw [List.getD_eq_getElem _ _ hk2]
    simp only [unique_mjd, List.getElem_map]
    rw [← huget]
    have hlen2 :
        lastOccurIdx rows ((unique_targetid rows).getD k 0)
          < (rows.map ObsRec.mjd).length := by
      simpa using hlen
    rw [List.getD_eq_getElem _ _ hlen2]
    simp only [List.getElem_map]
    rw [List.getD_eq_getElem _ _ hlen]
  · intro r2 hr2 hr2t
    exact hmax r2 hr2 (hr2t.trans htid)

/-- Witness for `survey_progress_last_observation`: a concrete sorted
three-row result in which `targetid 1` is observed twice; the computation
picks its second observation (`expid 12`, `mjd 6`). -/
theorem survey_progress_witness :
    List.Pairwise rowLe [⟨1, 10, 5⟩, ⟨1, 12, 6⟩, ⟨2, 7, 8⟩] ∧
    0 < (unique_targetid [⟨1, 10, 5⟩, ⟨1, 12, 6⟩, ⟨2, 7, 8⟩]).length ∧
    ∃ r ∈ ([⟨1, 10, 5⟩, ⟨1, 12, 6⟩, ⟨2, 7, 8⟩] : List ObsRec),
      r.targetid
          = (unique_targetid [⟨1, 10, 5⟩, ⟨1, 12, 6⟩, ⟨2, 7, 8⟩]).getD 0 0 ∧
      (unique_expid [⟨1, 10, 5⟩, ⟨1, 12, 6⟩, ⟨2, 7, 8⟩]).getD 0 0 = r.expid ∧
      (unique_mjd [⟨1, 10, 5⟩, ⟨1, 12, 6⟩, ⟨2, 7, 8⟩]).getD 0 0 = r.mjd ∧
      ∀ r2 ∈ ([⟨1, 10, 5⟩, ⟨1, 12, 6⟩, ⟨2, 7, 8⟩] : List ObsRec),
        r2.targetid = r.targetid → r2.expid ≤ r.expid :=
  ⟨by decide, by decide,
    survey_progress_last_observation [⟨1, 10, 5⟩, ⟨1, 12, 6⟩, ⟨2, 7, 8⟩]
      (by decide) 0 (by decide)⟩

end DesiTutorials
